import Mathlib

/-!
Shallow embedding of the `python_json_logger` repository
(src/app/modules/logging/...): the JSON value model used by the
`json` module boundary, the reader (`json_reader.py`), the record
model and writers (`json_logger.py`, `app_logger.py`) and the two
logger factories.  Python machine-level details that no claim needs
(file descriptors, encodings beyond UTF-8 pass-through) are modelled
by explicit oracles; everything else follows the source line by line.
-/

namespace PyJsonLogger

/-- JSON values as produced by Python's `json.loads` on one NDJSON line.
Numbers are modelled as integers (the repository only ever serializes
strings and nulls, so no claim depends on float rendering). -/
inductive Json where
  | null : Json
  | bool : Bool → Json
  | num : Int → Json
  | str : String → Json
  | arr : List Json → Json
  | obj : List (String × Json) → Json
deriving Repr

/-- `v is None` for a JSON-decoded Python value. -/
def Json.isNull : Json → Bool
  | .null => true
  | _ => false

/-- Python `repr()` on JSON-decoded values, for the container cases of
`str()` (strings are shown with quotes; escape sequences inside strings
are not modelled since no claim inspects them). -/
def pyRepr : Json → String
  | .null => "None"
  | .bool true => "True"
  | .bool false => "False"
  | .num n => toString n
  | .str s => "'" ++ s ++ "'"
  | .arr xs => "[" ++ String.intercalate ", " (xs.attach.map fun x => pyRepr x.1) ++ "]"
  | .obj kvs =>
      "\x7b" ++
        String.intercalate ", "
          (kvs.attach.map fun kv => "'" ++ kv.1.1 ++ "': " ++ pyRepr kv.1.2) ++
      "\x7d"
decreasing_by
  all_goals simp_wf
  · have := List.sizeOf_lt_of_mem x.2
    omega
  · rcases kv with ⟨⟨k, v⟩, hkv⟩
    have := List.sizeOf_lt_of_mem hkv
    simp_all
    omega

/-- Python `str()` on JSON-decoded values: identity on strings,
`None/True/False` keywords, decimal integers, `repr`-style containers. -/
def pyStr : Json → String
  | .str s => s
  | v => pyRepr v

/-- A Python dict as decoded from a JSON object line: an association
list with the first binding of a key winning (`json.loads` keeps the
last duplicate, but duplicate keys cannot occur in output of
`json.dumps`, and lookup below is by first match on a list that the
claims instantiate without duplicates). -/
def PyDict := List (String × Json)

/-- `d.get(k, default)`: first value bound to `k`, else the default. -/
def dictGet (d : PyDict) (k : String) (dflt : Json) : Json :=
  match d with
  | [] => dflt
  | (k0, v) :: rest => if k0 = k then v else dictGet rest k dflt

/-- `d.get(k)` with no default: `None` when the key is absent. -/
def dictGetOpt (d : PyDict) (k : String) : Json :=
  dictGet d k .null

/-- Python exceptions that the modelled code can raise or swallow. -/
inductive PyErr where
  | keyError : String → PyErr
  | ioError : String → PyErr
  | typeError : String → PyErr
  | attributeError : String → PyErr
deriving Repr, DecidableEq

/-- `d[k]`: the value bound to `k`, or a `KeyError`. -/
def dictItem (d : PyDict) (k : String) : Except PyErr Json :=
  match d with
  | [] => .error (.keyError k)
  | (k0, v) :: rest => if k0 = k then .ok v else dictItem rest k

/-!  `json_reader.py` — `JsonLogRecord` and `JsonLogReader`.  -/

/-- `JsonLogRecord` (frozen dataclass, json_reader.py lines 9-34). -/
structure JsonLogRecord where
  time : String
  logger : String
  level : String
  file : String
  thread : String
  message : String
  exc_type : Option String
  exc_message : Option String
  exc_traceback : Option String
deriving Repr, DecidableEq

/-- One exception field of `JsonLogRecord.from_dict`:
`str(raw[k]) if raw.get(k) is not None else None`.  The subscript
`raw[k]` can raise `KeyError`; the guard uses `raw.get(k)`. -/
def excFieldOf (raw : PyDict) (k : String) : Except PyErr (Option String) :=
  if (dictGetOpt raw k).isNull then
    .ok none
  else
    (dictItem raw k).map (fun v => some (pyStr v))

/-- `JsonLogRecord.from_dict` (json_reader.py lines 36-62): the six
string fields default to `""` when absent and are passed through
`str`; the three exception fields are `None` when absent or `None`,
else the `str` of the subscripted value. -/
def from_dict (raw : PyDict) : Except PyErr JsonLogRecord := do
  let et ← excFieldOf raw "exc_type"
  let em ← excFieldOf raw "exc_message"
  let etb ← excFieldOf raw "exc_traceback"
  .ok
    { time := pyStr (dictGet raw "time" (.str ""))
      logger := pyStr (dictGet raw "logger" (.str ""))
      level := pyStr (dictGet raw "level" (.str ""))
      file := pyStr (dictGet raw "file" (.str ""))
      thread := pyStr (dictGet raw "thread" (.str ""))
      message := pyStr (dictGet raw "message" (.str ""))
      exc_type := et
      exc_message := em
      exc_traceback := etb }

/-- One line of an NDJSON file, classified by what `line.strip()` and
`json.loads` do to it: whitespace-only, valid JSON with the given
value, or non-JSON text (carried verbatim, post-strip). -/
inductive RawLine where
  | blank : RawLine
  | jsonLine : Json → RawLine
  | badLine : String → RawLine
deriving Repr

/-- `json.JSONDecodeError` as raised by `json.loads(line)`: it is a
function of the parsed text alone (`doc` attribute is the stripped
line); it carries no file path and no file-relative line number. -/
structure JsonDecodeError where
  doc : String
deriving Repr, DecidableEq

/-- Errors escaping the reader: a JSON decode failure from a bad line,
or a Python-level error while mapping a decoded value to a record. -/
inductive ReadErr where
  | decode : JsonDecodeError → ReadErr
  | py : PyErr → ReadErr
deriving Repr, DecidableEq

/-- `JsonLogReader.iter_dicts` (json_reader.py lines 87-101) consumed
eagerly, as `to_list` does: strips each line, skips blanks, parses the
rest; a non-JSON line raises the decode error of that line and no
element list is produced.  The `path` argument (the reader's `_path`)
is only used to open the file and never flows into any error. -/
def iter_dicts (path : String) : List RawLine → Except ReadErr (List Json)
  | [] => .ok []
  | .blank :: rest => iter_dicts path rest
  | .jsonLine j :: rest => (iter_dicts path rest).map (fun ds => j :: ds)
  | .badLine s :: _rest => .error (.decode ⟨s⟩)

/-- `raw.get` on a non-dict JSON value raises `AttributeError`; on an
object it is dict access.  (`iter_records` feeds `json.loads` output
straight into `from_dict`.) -/
def asDict : Json → Except PyErr PyDict
  | .obj kvs => .ok kvs
  | _ => .error (.attributeError "get")

/-- `JsonLogReader.iter_records` (json_reader.py lines 103-112)
consumed eagerly: each decoded value is mapped through
`JsonLogRecord.from_dict` in stream order. -/
def iter_records (path : String) : List RawLine → Except ReadErr (List JsonLogRecord)
  | [] => .ok []
  | .blank :: rest => iter_records path rest
  | .jsonLine j :: rest =>
      match (asDict j).bind from_dict with
      | .error e => .error (.py e)
      | .ok r => (iter_records path rest).map (fun rs => r :: rs)
  | .badLine s :: _rest => .error (.decode ⟨s⟩)

/-- `JsonLogReader.to_list` (json_reader.py lines 114-122):
`list(self.iter_dicts())`. -/
def to_list (path : String) (ls : List RawLine) : Except ReadErr (List Json) :=
  iter_dicts path ls

/-- `JsonLogReader.to_records` (json_reader.py lines 124-131):
`list(self.iter_records())`. -/
def to_records (path : String) (ls : List RawLine) : Except ReadErr (List JsonLogRecord) :=
  iter_records path ls

/-!  `json_logger.py` — `JsonLogEntry` and its construction.  -/

/-- `JsonLogEntry` (dataclass, json_logger.py lines 115-141). -/
structure JsonLogEntry where
  time : String
  logger : String
  level : String
  file : String
  thread : String
  message : String
  exc_type : Option String
  exc_message : Option String
  exc_traceback : Option String
deriving Repr, DecidableEq

/-- The slice of `logging.LogRecord` read by `JsonLogEntry.from_record`:
`asctime` stands for `Formatter().formatTime(record, "%Y-%m-%d %H:%M:%S")`
(external formatter), `msg` for `record.getMessage()` (already rendered).
`exc_info` is `None` or a `(etype, evalue, etb)` triple whose components
may each be `None`; `etype` carries `etype.__name__`, `evalue` carries
`str(evalue)`, `etb` the presence of a traceback object. -/
structure PyLogRecord where
  name : String
  levelname : String
  filename : String
  threadName : String
  msg : String
  asctime : String
  exc_info : Option (Option String × Option String × Option Unit)
deriving Repr

/-- Behaviour of the external `traceback.format_exception(etype, evalue,
etb)` joined with `""`: either the formatted trace string or a raised
exception (the source wraps the call in `try`/`except`). -/
def FmtExc : Type :=
  Option String → Option String → Option Unit → Except PyErr String

/-- `JsonLogEntry.from_record` (json_logger.py lines 143-184),
parametrized by the external trace formatter. -/
def from_record (fmt : FmtExc) (record : PyLogRecord) : JsonLogEntry :=
  let excs : Option String × Option String × Option String :=
    match record.exc_info with
    | none => (none, none, none)
    | some (etype, evalue, etb) =>
        (etype, evalue,
         match fmt etype evalue etb with
         | .ok s => some s
         | .error _ => none)
  { time := record.asctime
    logger := record.name
    level := record.levelname
    file := record.filename
    thread := record.threadName
    message := record.msg
    exc_type := excs.1
    exc_message := excs.2.1
    exc_traceback := excs.2.2 }

/-- A `str | None` field as serialized into the JSON object. -/
def optJson : Option String → Json
  | none => Json.null
  | some s => Json.str s

/-- `DailyJsonRotatingFileHandler._serialize_record` (json_logger.py
lines 93-112), modelled at the JSON-value level: `dataclasses.asdict`
of the entry (insertion order = field order), rendered by
`json.dumps(..., ensure_ascii=False, default=str)`.  The external
`json` module is value-faithful on a flat dict of strings and nulls
(`json.loads(json.dumps(d)) == d`; `default=str` is never invoked for
these types), so the serialized line is represented by the object the
reader's `json.loads` recovers from it. -/
def serialize_record (e : JsonLogEntry) : PyDict :=
  [("time", .str e.time), ("logger", .str e.logger), ("level", .str e.level),
   ("file", .str e.file), ("thread", .str e.thread), ("message", .str e.message),
   ("exc_type", optJson e.exc_type), ("exc_message", optJson e.exc_message),
   ("exc_traceback", optJson e.exc_traceback)]

/-!  Day-keyed file naming and the rotation state machine shared by
`DailyJsonRotatingFileHandler.emit` and `DailyRotatingFileHandler.emit`
(the two method bodies are line-for-line duplicates up to suffix and
rendering).  -/

/-- A wall-clock date. -/
structure Date where
  day : Nat
  month : Nat
  year : Nat
deriving Repr, DecidableEq

/-- Two-digit zero-padded component, as `%d`/`%m`/`%y` render it. -/
def pad2 (n : Nat) : String :=
  if n < 10 then "0" ++ toString n else toString n

/-- `datetime.now().strftime("%d_%m_%y")`. -/
def formatDate (d : Date) : String :=
  pad2 d.day ++ "_" ++ pad2 d.month ++ "_" ++ pad2 (d.year % 100)

/-- `DailyJsonRotatingFileHandler._get_current_log_file`
(json_logger.py lines 57-65). -/
def jsonLogFile (log_dir : String) (d : Date) : String :=
  log_dir ++ "/" ++ formatDate d ++ "_logs.ndjson"

/-- `DailyRotatingFileHandler._get_current_log_file`
(app_logger.py lines 40-48). -/
def textLogFile (log_dir : String) (d : Date) : String :=
  log_dir ++ "/" ++ formatDate d ++ "_logs.log"

/-- The mutable handler attributes both rotating handlers use:
`log_dir`, `mode`, `_current_file`, `baseFilename`, and the open
stream, identified by the path it appends to (`none` = closed). -/
structure HandlerSt where
  log_dir : String
  mode : String
  current_file : Option String
  baseFilename : String
  stream : Option String
deriving Repr, DecidableEq

/-- Filesystem behaviour oracle: whether each `close`/`_open`/`write`/
`flush` call succeeds or raises, per path. -/
structure FsOracle where
  openFile : String → String → Except PyErr Unit
  closeFile : String → Except PyErr Unit
  writeFile : String → String → Except PyErr Unit
  flushFile : String → Except PyErr Unit

/-- Observable filesystem actions, in program order. -/
inductive FsEvent where
  | closed : String → FsEvent
  | opened : String → String → FsEvent
  | wrote : String → String → FsEvent
  | flushed : String → FsEvent
deriving Repr, DecidableEq

/-- The shared rotation block (json_logger.py lines 75-84,
app_logger.py lines 59-71): recompute the candidate from the current
date; if it differs from `_current_file` (including `_current_file is
None`), close the open stream if any, record the candidate in
`_current_file` and `baseFilename`, and `_open()` it (append mode from
`self.mode`). -/
def rotateTo (fs : FsOracle) (candidate : String) (st : HandlerSt) :
    Except PyErr (HandlerSt × List FsEvent) :=
  if st.current_file = some candidate then .ok (st, [])
  else
    let st1 : HandlerSt :=
      { st with
        current_file := some candidate
        baseFilename := candidate
        stream := some candidate }
    match st.stream with
    | some q =>
        match fs.closeFile q with
        | .error e => .error e
        | .ok _ =>
            match fs.openFile candidate st.mode with
            | .error e => .error e
            | .ok _ => .ok (st1, [.closed q, .opened candidate st.mode])
    | none =>
        match fs.openFile candidate st.mode with
        | .error e => .error e
        | .ok _ => .ok (st1, [.opened candidate st.mode])

/-- `stream.write(text)` followed by `stream.flush()`. -/
def appendFlush (fs : FsOracle) (p : String) (text : String) :
    Except PyErr (List FsEvent) :=
  match fs.writeFile p text with
  | .error e => .error e
  | .ok _ =>
      match fs.flushFile p with
      | .error e => .error e
      | .ok _ => .ok [.wrote p text, .flushed p]

/-- The body of `DailyJsonRotatingFileHandler.emit` (json_logger.py
lines 74-89), i.e. the `try` block: rotation, serialization (`ser` is
the outcome of `self._serialize_record(record)`), then
`stream = self.stream or self._open()` (a local — a reopen here does
not update `self.stream`), `stream.write(json_line + "\n")`,
`stream.flush()`.  Returns the post-state, the path appended to, and
the event trace.  On `.error` the caller falls into `except Exception`. -/
def jsonEmitBody (fs : FsOracle) (ser : Except PyErr String) (now : Date)
    (st : HandlerSt) : Except PyErr (HandlerSt × String × List FsEvent) :=
  let candidate := jsonLogFile st.log_dir now
  match rotateTo fs candidate st with
  | .error e => .error e
  | .ok (st1, ev1) =>
      match ser with
      | .error e => .error e
      | .ok json_line =>
          match st1.stream with
          | some p =>
              match appendFlush fs p (json_line ++ "\n") with
              | .error e => .error e
              | .ok ev2 => .ok (st1, p, ev1 ++ ev2)
          | none =>
              match fs.openFile st1.baseFilename st1.mode with
              | .error e => .error e
              | .ok _ =>
                  match appendFlush fs st1.baseFilename (json_line ++ "\n") with
                  | .error e => .error e
                  | .ok ev2 =>
                      .ok (st1, st1.baseFilename,
                           ev1 ++ .opened st1.baseFilename st1.mode :: ev2)

/-- Outcome of one `emit` call: a line appended to `path` with trace
`tr`, or the failure swallowed by `except Exception: self.handleError`.
(Python mutates the handler in place, so a mid-`try` failure can leave
partially updated attributes; no claim inspects the post-error state,
and the model reports the pre-call state in that case.) -/
inductive EmitResult where
  | wrote : HandlerSt → String → List FsEvent → EmitResult
  | errorHandled : HandlerSt → EmitResult
deriving Repr

/-- `DailyJsonRotatingFileHandler.emit` (json_logger.py lines 67-91):
the whole body is wrapped in `try ... except Exception:
self.handleError(record)`, so no exception escapes. -/
def jsonEmit (fs : FsOracle) (ser : Except PyErr String) (now : Date)
    (st : HandlerSt) : EmitResult :=
  match jsonEmitBody fs ser now st with
  | .ok (st2, p, tr) => .wrote st2 p tr
  | .error _ => .errorHandled st

/-- External `logging.StreamHandler.emit`: formats the record (`msg` is
the outcome of `self.format(record)`), writes `msg + self.terminator`
to the stream and flushes; its own `try`/`except` routes any failure to
`handleError`, so it never raises.  Returns the path appended to (or
`none` when a failure was swallowed) and the successful trace. -/
def streamHandlerEmit (fs : FsOracle) (msg : Except PyErr String) (p : String) :
    Option String × List FsEvent :=
  match msg with
  | .error _ => (none, [])
  | .ok m =>
      match appendFlush fs p (m ++ "\n") with
      | .error _ => (none, [])
      | .ok ev => (some p, ev)

/-- The body of `DailyRotatingFileHandler.emit` (app_logger.py lines
57-78), i.e. the `try` block: rotation, then `super().emit(record)` —
external `logging.FileHandler.emit`, which reopens `baseFilename` into
`self.stream` when the stream is `None` and delegates to
`StreamHandler.emit` — then `if self.stream: self.flush()`.  Returns
the post-state, the path the line went to (`none` if the inner handler
swallowed a failure), and the event trace. -/
def textEmitBody (fs : FsOracle) (msg : Except PyErr String) (now : Date)
    (st : HandlerSt) : Except PyErr (HandlerSt × Option String × List FsEvent) :=
  let candidate := textLogFile st.log_dir now
  match rotateTo fs candidate st with
  | .error e => .error e
  | .ok (st1, ev1) =>
      match st1.stream with
      | some p =>
          let (written, ev2) := streamHandlerEmit fs msg p
          match fs.flushFile p with
          | .error e => .error e
          | .ok _ => .ok (st1, written, ev1 ++ ev2 ++ [.flushed p])
      | none =>
          match fs.openFile st1.baseFilename st1.mode with
          | .error e => .error e
          | .ok _ =>
              let st2 : HandlerSt := { st1 with stream := some st1.baseFilename }
              let (written, ev2) := streamHandlerEmit fs msg st1.baseFilename
              match fs.flushFile st1.baseFilename with
              | .error e => .error e
              | .ok _ =>
                  .ok (st2, written,
                       ev1 ++ .opened st1.baseFilename st1.mode :: ev2 ++
                         [.flushed st1.baseFilename])

/-- Outcome of one text `emit` call: completed (with the path the line
was appended to, if any), or the failure swallowed by
`except Exception: self.handleError(record)`. -/
inductive TextEmitResult where
  | completed : HandlerSt → Option String → List FsEvent → TextEmitResult
  | errorHandled : HandlerSt → TextEmitResult
deriving Repr

/-- `DailyRotatingFileHandler.emit` (app_logger.py lines 50-80): the
whole body is wrapped in `try ... except Exception:
self.handleError(record)`, so no exception escapes. -/
def textEmit (fs : FsOracle) (msg : Except PyErr String) (now : Date)
    (st : HandlerSt) : TextEmitResult :=
  match textEmitBody fs msg now st with
  | .ok (st2, written, tr) => .completed st2 written tr
  | .error _ => .errorHandled st

/-!  The logger factories (`get_json_app_logger`, json_logger.py lines
219-274; `get_app_logger`, app_logger.py lines 112-172).  -/

/-- `logging` level constants used by the factories
(`FATAL` is `CRITICAL`). -/
def levels_map : List (String × Nat) :=
  [("DEBUG", 10), ("FATAL", 50), ("ERROR", 40), ("WARN", 30), ("INFO", 20)]

/-- `levels_map.get(level, INFO)`. -/
def levelsMapGet (level : String) : Nat :=
  (levels_map.lookup level).getD 20

/-- A handler as the factories observe it: a rotating file handler or
a console `StreamHandler`, with its configured level. -/
inductive HandlerKind where
  | fileH : HandlerKind
  | streamH : HandlerKind
deriving Repr, DecidableEq

structure HandlerModel where
  kind : HandlerKind
  hlevel : Nat
deriving Repr, DecidableEq

/-- A `Logger` instance as both factories build one: `Logger.__init__`
(run by `JsonAppLogger.__init__` / `AppLogger.__init__`) sets the name
and an empty `handlers` list; it does not consult or update the
`logging` registry (`logging.getLogger` is never called). -/
structure LoggerModel where
  name : String
  level : Nat
  handlers : List HandlerModel
deriving Repr, DecidableEq

/-- `get_json_app_logger(logger_name, level, to_console)`
(json_logger.py lines 219-274).  `writersMade` counts the
`DailyJsonRotatingFileHandler` instances constructed so far in the
process, making the attachment of a new output destination observable
across calls; it is the only process-global state the factory touches
(directory creation aside). -/
def get_json_app_logger (logger_name : String) (level : String)
    (to_console : Bool) (writersMade : Nat) : LoggerModel × Nat :=
  let current_level := levelsMapGet level
  let logger : LoggerModel :=
    { name := logger_name, level := current_level, handlers := [] }
  if logger.handlers.isEmpty then
    let file_handler : HandlerModel := { kind := .fileH, hlevel := current_level }
    let logger := { logger with handlers := logger.handlers ++ [file_handler] }
    if to_console then
      let stream_handler : HandlerModel := { kind := .streamH, hlevel := current_level }
      ({ logger with handlers := logger.handlers ++ [stream_handler] }, writersMade + 1)
    else
      (logger, writersMade + 1)
  else
    (logger, writersMade)

/-- `get_app_logger(logger_name, level, to_console)` (app_logger.py
lines 112-172); the body mirrors `get_json_app_logger` with a
`DailyRotatingFileHandler` and a formatter (the formatter has no
observable effect on the modelled fields). -/
def get_app_logger (logger_name : String) (level : String)
    (to_console : Bool) (writersMade : Nat) : LoggerModel × Nat :=
  let current_level := levelsMapGet level
  let logger : LoggerModel :=
    { name := logger_name, level := current_level, handlers := [] }
  if logger.handlers.isEmpty then
    let file_handler : HandlerModel := { kind := .fileH, hlevel := current_level }
    let logger := { logger with handlers := logger.handlers ++ [file_handler] }
    if to_console then
      let stream_handler : HandlerModel := { kind := .streamH, hlevel := current_level }
      ({ logger with handlers := logger.handlers ++ [stream_handler] }, writersMade + 1)
    else
      (logger, writersMade + 1)
  else
    (logger, writersMade)

/-!  Helper vocabulary and lemmas used by the verification theorems.  -/

/-- Key presence in a dict (`k in d`): the bound value, if any. -/
def keyLookup (d : PyDict) (k : String) : Option Json :=
  match d with
  | [] => none
  | (k0, v) :: rest => if k0 = k then some v else keyLookup rest k

theorem dictGet_eq_keyLookup (d : PyDict) (k : String) (dflt : Json) :
    dictGet d k dflt = (keyLookup d k).getD dflt := by
  induction d with
  | nil => rfl
  | cons kv rest ih =>
      obtain ⟨k0, v⟩ := kv
      simp only [dictGet, keyLookup]
      by_cases h : k0 = k <;> simp [h, ih]

theorem dictGetOpt_eq_keyLookup (d : PyDict) (k : String) :
    dictGetOpt d k = (keyLookup d k).getD .null :=
  dictGet_eq_keyLookup d k .null

theorem dictItem_of_present (d : PyDict) (k : String) (v : Json)
    (h : keyLookup d k = some v) : dictItem d k = .ok v := by
  induction d with
  | nil => simp [keyLookup] at h
  | cons kv rest ih =>
      obtain ⟨k0, w⟩ := kv
      simp only [keyLookup] at h
      simp only [dictItem]
      by_cases hk : k0 = k
      · simp [hk] at h ⊢
        simpa using h
      · simp [hk] at h ⊢
        exact ih h

/-- The exception-field mapping of `from_dict`, as a total function. -/
def excPure (raw : PyDict) (k : String) : Option String :=
  if (dictGetOpt raw k).isNull then none else some (pyStr (dictGetOpt raw k))

theorem excFieldOf_eq (raw : PyDict) (k : String) :
    excFieldOf raw k = .ok (excPure raw k) := by
  unfold excFieldOf excPure
  by_cases h : (dictGetOpt raw k).isNull
  · simp [h]
  · simp only [h, Bool.false_eq_true, if_false]
    have hv : ∃ v, keyLookup raw k = some v ∧ dictGetOpt raw k = v := by
      rcases hl : keyLookup raw k with _ | v
      · exfalso
        apply h
        rw [dictGetOpt_eq_keyLookup, hl]
        rfl
      · exact ⟨v, rfl, by rw [dictGetOpt_eq_keyLookup, hl]; rfl⟩
    rcases hv with ⟨v, hl, hval⟩
    rw [dictItem_of_present raw k v hl, hval]
    rfl

/-- `from_dict` as the total function it computes. -/
def fromDictPure (raw : PyDict) : JsonLogRecord :=
  { time := pyStr (dictGet raw "time" (.str ""))
    logger := pyStr (dictGet raw "logger" (.str ""))
    level := pyStr (dictGet raw "level" (.str ""))
    file := pyStr (dictGet raw "file" (.str ""))
    thread := pyStr (dictGet raw "thread" (.str ""))
    message := pyStr (dictGet raw "message" (.str ""))
    exc_type := excPure raw "exc_type"
    exc_message := excPure raw "exc_message"
    exc_traceback := excPure raw "exc_traceback" }

theorem from_dict_eq_pure (raw : PyDict) :
    from_dict raw = .ok (fromDictPure raw) := by
  unfold from_dict
  rw [excFieldOf_eq, excFieldOf_eq, excFieldOf_eq]
  rfl

/-- Is this a whitespace-only line? -/
def RawLine.isBlank : RawLine → Bool
  | .blank => true
  | _ => false

/-- Is this a non-JSON line (one `json.loads` rejects)? -/
def RawLine.isBad : RawLine → Bool
  | .badLine _ => true
  | _ => false

/-- Is this a line the record path fully accepts: blank, or a JSON
object line? -/
def RawLine.isGoodObj : RawLine → Bool
  | .blank => true
  | .jsonLine (.obj _) => true
  | _ => false

/-- The JSON values of the non-blank lines, in file order. -/
def jsonVals : List RawLine → List Json
  | [] => []
  | .jsonLine j :: rest => j :: jsonVals rest
  | _ :: rest => jsonVals rest

/-- The dicts of the JSON-object lines, in file order. -/
def objLines : List RawLine → List PyDict
  | [] => []
  | .jsonLine (.obj kvs) :: rest => kvs :: objLines rest
  | _ :: rest => objLines rest

theorem iter_dicts_ok_of_no_bad (path : String) (ls : List RawLine)
    (h : ls.countP (fun l => l.isBad) = 0) :
    iter_dicts path ls = .ok (jsonVals ls) := by
  induction ls with
  | nil => rfl
  | cons l rest ih =>
      rw [List.countP_cons] at h
      cases l with
      | blank =>
          simp only [RawLine.isBad, if_neg, Bool.false_eq_true, reduceIte,
            Nat.add_zero] at h
          simp only [iter_dicts, jsonVals]
          exact ih h
      | jsonLine j =>
          simp only [RawLine.isBad, Bool.false_eq_true, reduceIte,
            Nat.add_zero] at h
          simp only [iter_dicts, jsonVals]
          rw [ih h]
          rfl
      | badLine s =>
          simp [RawLine.isBad] at h

theorem iter_records_ok_of_good (path : String) (ls : List RawLine)
    (h : ∀ l ∈ ls, l.isGoodObj = true) :
    iter_records path ls = .ok ((objLines ls).map fromDictPure) := by
  induction ls with
  | nil => rfl
  | cons l rest ih =>
      have hl : l.isGoodObj = true := h l (List.mem_cons_self l rest)
      have hrest : ∀ x ∈ rest, x.isGoodObj = true :=
        fun x hx => h x (List.mem_cons_of_mem l hx)
      cases l with
      | blank =>
          simp only [iter_records, objLines]
          exact ih hrest
      | jsonLine j =>
          cases j with
          | obj kvs =>
              simp only [iter_records, objLines, asDict, List.map]
              rw [show (Except.ok kvs : Except PyErr PyDict).bind from_dict
                    = from_dict kvs from rfl,
                  from_dict_eq_pure, ih hrest]
              rfl
          | null => simp [RawLine.isGoodObj] at hl
          | bool b => simp [RawLine.isGoodObj] at hl
          | num n => simp [RawLine.isGoodObj] at hl
          | str s => simp [RawLine.isGoodObj] at hl
          | arr xs => simp [RawLine.isGoodObj] at hl
      | badLine s => simp [RawLine.isGoodObj] at hl

theorem iter_dicts_error_at_first_bad (path : String) (pre : List RawLine)
    (s : String) (rest : List RawLine)
    (h : pre.countP (fun l => l.isBad) = 0) :
    iter_dicts path (pre ++ .badLine s :: rest) = .error (.decode ⟨s⟩) := by
  induction pre with
  | nil => rfl
  | cons l pre' ih =>
      rw [List.countP_cons] at h
      cases l with
      | blank =>
          simp only [RawLine.isBad, Bool.false_eq_true, reduceIte,
            Nat.add_zero] at h
          simp only [List.cons_append, iter_dicts]
          simp only [List.append_eq]
          exact ih h
      | jsonLine j =>
          simp only [RawLine.isBad, Bool.false_eq_true, reduceIte,
            Nat.add_zero] at h
          simp only [List.cons_append, iter_dicts]
          simp only [List.append_eq]
          rw [ih h]
          rfl
      | badLine t => simp [RawLine.isBad] at h

theorem iter_records_error_at_first_bad (path : String) (pre : List RawLine)
    (s : String) (rest : List RawLine)
    (h : ∀ l ∈ pre, l.isGoodObj = true) :
    iter_records path (pre ++ .badLine s :: rest) = .error (.decode ⟨s⟩) := by
  induction pre with
  | nil => rfl
  | cons l pre' ih =>
      have hl : l.isGoodObj = true := h l (List.mem_cons_self l pre')
      have hrest : ∀ x ∈ pre', x.isGoodObj = true :=
        fun x hx => h x (List.mem_cons_of_mem l hx)
      cases l with
      | blank =>
          simp only [List.cons_append, iter_records]
          simp only [List.append_eq]
          exact ih hrest
      | jsonLine j =>
          cases j with
          | obj kvs =>
              simp only [List.cons_append, iter_records, asDict]
              simp only [List.append_eq]
              rw [show (Except.ok kvs : Except PyErr PyDict).bind from_dict
                    = from_dict kvs from rfl,
                  from_dict_eq_pure, ih hrest]
              rfl
          | null => simp [RawLine.isGoodObj] at hl
          | bool b => simp [RawLine.isGoodObj] at hl
          | num n => simp [RawLine.isGoodObj] at hl
          | str t => simp [RawLine.isGoodObj] at hl
          | arr xs => simp [RawLine.isGoodObj] at hl
      | badLine t => simp [RawLine.isGoodObj] at hl

theorem iter_dicts_ok_no_bad (path : String) (ls : List RawLine)
    (ds : List Json) (h : iter_dicts path ls = .ok ds) :
    ls.countP (fun l => l.isBad) = 0 := by
  induction ls generalizing ds with
  | nil => rfl
  | cons l rest ih =>
      rw [List.countP_cons]
      cases l with
      | blank =>
          simp only [iter_dicts] at h
          rw [ih ds h]
          simp [RawLine.isBad]
      | jsonLine j =>
          simp only [iter_dicts] at h
          rcases hr : iter_dicts path rest with e | ds'
          · rw [hr] at h
            exact absurd h (by simp [Except.map])
          · rw [ih ds' hr]
            simp [RawLine.isBad]
      | badLine s =>
          simp only [iter_dicts] at h
          exact absurd h (by simp)

theorem iter_dicts_filter_blanks (path : String) (ls : List RawLine) :
    iter_dicts path (ls.filter (fun l => !l.isBlank)) = iter_dicts path ls := by
  induction ls with
  | nil => rfl
  | cons l rest ih =>
      cases l with
      | blank =>
          rw [List.filter_cons_of_neg (by simp [RawLine.isBlank])]
          rw [ih]
          rfl
      | jsonLine j =>
          rw [List.filter_cons_of_pos (by simp [RawLine.isBlank])]
          simp only [iter_dicts]
          rw [ih]
      | badLine s =>
          rw [List.filter_cons_of_pos (by simp [RawLine.isBlank])]
          rfl

theorem iter_records_filter_blanks (path : String) (ls : List RawLine) :
    iter_records path (ls.filter (fun l => !l.isBlank)) = iter_records path ls := by
  induction ls with
  | nil => rfl
  | cons l rest ih =>
      cases l with
      | blank =>
          rw [List.filter_cons_of_neg (by simp [RawLine.isBlank])]
          rw [ih]
          rfl
      | jsonLine j =>
          rw [List.filter_cons_of_pos (by simp [RawLine.isBlank])]
          simp only [iter_records]
          rw [ih]
      | badLine s =>
          rw [List.filter_cons_of_pos (by simp [RawLine.isBlank])]
          rfl

theorem objLines_length_of_good (ls : List RawLine)
    (h : ∀ l ∈ ls, l.isGoodObj = true) :
    (objLines ls).length = ls.countP (fun l => !l.isBlank) := by
  induction ls with
  | nil => rfl
  | cons l rest ih =>
      have hl : l.isGoodObj = true := h l (List.mem_cons_self l rest)
      have hrest : ∀ x ∈ rest, x.isGoodObj = true :=
        fun x hx => h x (List.mem_cons_of_mem l hx)
      rw [List.countP_cons]
      cases l with
      | blank => simp [objLines, RawLine.isBlank, ih hrest]
      | jsonLine j =>
          cases j with
          | obj kvs => simp [objLines, RawLine.isBlank, ih hrest]
          | null => simp [RawLine.isGoodObj] at hl
          | bool b => simp [RawLine.isGoodObj] at hl
          | num n => simp [RawLine.isGoodObj] at hl
          | str s => simp [RawLine.isGoodObj] at hl
          | arr xs => simp [RawLine.isGoodObj] at hl
      | badLine s => simp [RawLine.isGoodObj] at hl

/-- Handler-state consistency: whenever `_current_file` is set, it
agrees with `baseFilename`, and the open stream (if any) is the one
opened for it.  The initial state after `__init__` has
`_current_file = None`, so it satisfies this trivially, and every
successful `emit` re-establishes it. -/
def goodStateB (st : HandlerSt) : Bool :=
  match st.current_file with
  | none => true
  | some c =>
      st.baseFilename == c &&
        (match st.stream with
         | none => true
         | some p => p == c)

theorem goodState_spec (st : HandlerSt) (c : String)
    (hg : goodStateB st = true) (hc : st.current_file = some c) :
    st.baseFilename = c ∧ ∀ p, st.stream = some p → p = c := by
  unfold goodStateB at hg
  rw [hc] at hg
  rcases hs : st.stream with _ | p
  · rw [hs] at hg
    simp only [Bool.and_true, beq_iff_eq] at hg
    exact ⟨hg, fun p hp => by cases hp⟩
  · rw [hs] at hg
    simp only [Bool.and_eq_true, beq_iff_eq] at hg
    exact ⟨hg.1, fun q hq => by cases hq; exact hg.2⟩

/-- The events of a rotation from state `st` to `candidate`. -/
def rotTrace (st : HandlerSt) (candidate : String) : List FsEvent :=
  (match st.stream with
   | some q => [.closed q]
   | none => []) ++ [.opened candidate st.mode]

/-- The full event trace of a successful JSON `emit` writing `line`:
rotation first when the candidate differs from `_current_file` (or a
plain reopen when the stream happens to be closed), then the write of
the line plus newline, then the flush. -/
def jsonTrace (st : HandlerSt) (candidate line : String) : List FsEvent :=
  (if st.current_file = some candidate then
     (match st.stream with
      | some _ => []
      | none => [.opened candidate st.mode])
   else rotTrace st candidate) ++
  [.wrote candidate (line ++ "\n"), .flushed candidate]

/-- Same for the text handler; `FileHandler.emit`/`StreamHandler.emit`
flush once and `DailyRotatingFileHandler.emit` flushes again. -/
def textTrace (st : HandlerSt) (candidate line : String) : List FsEvent :=
  (if st.current_file = some candidate then
     (match st.stream with
      | some _ => []
      | none => [.opened candidate st.mode])
   else rotTrace st candidate) ++
  [.wrote candidate (line ++ "\n"), .flushed candidate, .flushed candidate]

theorem jsonEmitBody_ok (fs : FsOracle) (ser : Except PyErr String) (now : Date)
    (st st2 : HandlerSt) (p : String) (tr : List FsEvent) (line : String)
    (hg : goodStateB st = true) (hline : ser = .ok line)
    (h : jsonEmitBody fs ser now st = .ok (st2, p, tr)) :
    p = jsonLogFile st.log_dir now ∧ st2.current_file = some p ∧
    st2.baseFilename = p ∧ goodStateB st2 = true ∧
    tr = jsonTrace st (jsonLogFile st.log_dir now) line := by
  subst hline
  by_cases hc : st.current_file = some (jsonLogFile st.log_dir now)
  · obtain ⟨hbase, hstream⟩ := goodState_spec st _ hg hc
    rcases hs : st.stream with _ | q
    · rcases ho : fs.openFile st.baseFilename st.mode with e | u
      · simp [jsonEmitBody, rotateTo, hc, hs, ho] at h
      · rcases hw : fs.writeFile st.baseFilename (line ++ "\n") with e | u
        · simp [jsonEmitBody, rotateTo, appendFlush, hc, hs, ho, hw] at h
        · rcases hf : fs.flushFile st.baseFilename with e | u
          · simp [jsonEmitBody, rotateTo, appendFlush, hc, hs, ho, hw, hf] at h
          · simp [jsonEmitBody, rotateTo, appendFlush, hc, hs, ho, hw, hf] at h
            obtain ⟨rfl, rfl, rfl⟩ := h
            refine ⟨hbase, ?_, rfl, hg, ?_⟩
            · rw [hbase]; exact hc
            · simp [jsonTrace, hc, hs, hbase]
    · have hq : q = jsonLogFile st.log_dir now := hstream q hs
      subst hq
      rcases hw : fs.writeFile (jsonLogFile st.log_dir now) (line ++ "\n") with e | u
      · simp [jsonEmitBody, rotateTo, appendFlush, hc, hs, hw] at h
      · rcases hf : fs.flushFile (jsonLogFile st.log_dir now) with e | u
        · simp [jsonEmitBody, rotateTo, appendFlush, hc, hs, hw, hf] at h
        · simp [jsonEmitBody, rotateTo, appendFlush, hc, hs, hw, hf] at h
          obtain ⟨rfl, rfl, rfl⟩ := h
          refine ⟨rfl, hc, hbase, hg, ?_⟩
          simp [jsonTrace, hc, hs]
  · rcases hs : st.stream with _ | q
    · rcases ho : fs.openFile (jsonLogFile st.log_dir now) st.mode with e | u
      · simp [jsonEmitBody, rotateTo, hc, hs, ho] at h
      · rcases hw : fs.writeFile (jsonLogFile st.log_dir now) (line ++ "\n") with e | u
        · simp [jsonEmitBody, rotateTo, appendFlush, hc, hs, ho, hw] at h
        · rcases hf : fs.flushFile (jsonLogFile st.log_dir now) with e | u
          · simp [jsonEmitBody, rotateTo, appendFlush, hc, hs, ho, hw, hf] at h
          · simp [jsonEmitBody, rotateTo, appendFlush, hc, hs, ho, hw, hf] at h
            obtain ⟨rfl, rfl, rfl⟩ := h
            refine ⟨rfl, rfl, rfl, by simp [goodStateB], ?_⟩
            simp [jsonTrace, rotTrace, hc, hs]
    · rcases hcl : fs.closeFile q with e | u
      · simp [jsonEmitBody, rotateTo, hc, hs, hcl] at h
      · rcases ho : fs.openFile (jsonLogFile st.log_dir now) st.mode with e | u
        · simp [jsonEmitBody, rotateTo, hc, hs, hcl, ho] at h
        · rcases hw : fs.writeFile (jsonLogFile st.log_dir now) (line ++ "\n") with e | u
          · simp [jsonEmitBody, rotateTo, appendFlush, hc, hs, hcl, ho, hw] at h
          · rcases hf : fs.flushFile (jsonLogFile st.log_dir now) with e | u
            · simp [jsonEmitBody, rotateTo, appendFlush, hc, hs, hcl, ho, hw, hf] at h
            · simp [jsonEmitBody, rotateTo, appendFlush, hc, hs, hcl, ho, hw, hf] at h
              obtain ⟨rfl, rfl, rfl⟩ := h
              refine ⟨rfl, rfl, rfl, by simp [goodStateB], ?_⟩
              simp [jsonTrace, rotTrace, hc, hs]

theorem textEmitBody_ok (fs : FsOracle) (msg : Except PyErr String) (now : Date)
    (st st2 : HandlerSt) (p : String) (tr : List FsEvent) (line : String)
    (hg : goodStateB st = true) (hline : msg = .ok line)
    (h : textEmitBody fs msg now st = .ok (st2, some p, tr)) :
    p = textLogFile st.log_dir now ∧ st2.current_file = some p ∧
    st2.baseFilename = p ∧ goodStateB st2 = true ∧
    tr = textTrace st (textLogFile st.log_dir now) line := by
  subst hline
  by_cases hc : st.current_file = some (textLogFile st.log_dir now)
  · obtain ⟨hbase, hstream⟩ := goodState_spec st _ hg hc
    rcases hs : st.stream with _ | q
    · rcases ho : fs.openFile st.baseFilename st.mode with e | u
      · simp [textEmitBody, rotateTo, streamHandlerEmit, appendFlush, hc, hs, ho] at h
      · rcases hw : fs.writeFile st.baseFilename (line ++ "\n") with e | u
        · rcases hf : fs.flushFile st.baseFilename with e2 | u2 <;>
            simp [textEmitBody, rotateTo, streamHandlerEmit, appendFlush,
              hc, hs, ho, hw, hf] at h
        · rcases hf : fs.flushFile st.baseFilename with e | u
          · simp [textEmitBody, rotateTo, streamHandlerEmit, appendFlush,
              hc, hs, ho, hw, hf] at h
          · simp [textEmitBody, rotateTo, streamHandlerEmit, appendFlush,
              hc, hs, ho, hw, hf] at h
            obtain ⟨rfl, rfl, rfl⟩ := h
            refine ⟨hbase, ?_, rfl, ?_, ?_⟩
            · rw [hbase]
            · simp [goodStateB, hc, hbase]
            · simp [textTrace, hc, hs, hbase]
    · have hq : q = textLogFile st.log_dir now := hstream q hs
      subst hq
      rcases hw : fs.writeFile (textLogFile st.log_dir now) (line ++ "\n") with e | u
      · rcases hf : fs.flushFile (textLogFile st.log_dir now) with e2 | u2 <;>
          simp [textEmitBody, rotateTo, streamHandlerEmit, appendFlush,
            hc, hs, hw, hf] at h
      · rcases hf : fs.flushFile (textLogFile st.log_dir now) with e | u
        · simp [textEmitBody, rotateTo, streamHandlerEmit, appendFlush,
            hc, hs, hw, hf] at h
        · simp [textEmitBody, rotateTo, streamHandlerEmit, appendFlush,
            hc, hs, hw, hf] at h
          obtain ⟨rfl, rfl, rfl⟩ := h
          refine ⟨rfl, hc, hbase, hg, ?_⟩
          simp [textTrace, hc, hs]
  · rcases hs : st.stream with _ | q
    · rcases ho : fs.openFile (textLogFile st.log_dir now) st.mode with e | u
      · simp [textEmitBody, rotateTo, streamHandlerEmit, appendFlush, hc, hs, ho] at h
      · rcases hw : fs.writeFile (textLogFile st.log_dir now) (line ++ "\n") with e | u
        · rcases hf : fs.flushFile (textLogFile st.log_dir now) with e2 | u2 <;>
            simp [textEmitBody, rotateTo, streamHandlerEmit, appendFlush,
              hc, hs, ho, hw, hf] at h
        · rcases hf : fs.flushFile (textLogFile st.log_dir now) with e | u
          · simp [textEmitBody, rotateTo, streamHandlerEmit, appendFlush,
              hc, hs, ho, hw, hf] at h
          · simp [textEmitBody, rotateTo, streamHandlerEmit, appendFlush,
              hc, hs, ho, hw, hf] at h
            obtain ⟨rfl, rfl, rfl⟩ := h
            refine ⟨rfl, rfl, rfl, by simp [goodStateB], ?_⟩
            simp [textTrace, rotTrace, hc, hs]
    · rcases hcl : fs.closeFile q with e | u
      · simp [textEmitBody, rotateTo, hc, hs, hcl] at h
      · rcases ho : fs.openFile (textLogFile st.log_dir now) st.mode with e | u
        · simp [textEmitBody, rotateTo, hc, hs, hcl, ho] at h
        · rcases hw : fs.writeFile (textLogFile st.log_dir now) (line ++ "\n") with e | u
          · rcases hf : fs.flushFile (textLogFile st.log_dir now) with e2 | u2 <;>
              simp [textEmitBody, rotateTo, streamHandlerEmit, appendFlush,
                hc, hs, hcl, ho, hw, hf] at h
          · rcases hf : fs.flushFile (textLogFile st.log_dir now) with e | u
            · simp [textEmitBody, rotateTo, streamHandlerEmit, appendFlush,
                hc, hs, hcl, ho, hw, hf] at h
            · simp [textEmitBody, rotateTo, streamHandlerEmit, appendFlush,
                hc, hs, hcl, ho, hw, hf] at h
              obtain ⟨rfl, rfl, rfl⟩ := h
              refine ⟨rfl, rfl, rfl, by simp [goodStateB], ?_⟩
              simp [textTrace, rotTrace, hc, hs]

theorem from_dict_serialize (e : JsonLogEntry) :
    from_dict (serialize_record e) =
      .ok { time := e.time, logger := e.logger, level := e.level, file := e.file,
            thread := e.thread, message := e.message, exc_type := e.exc_type,
            exc_message := e.exc_message, exc_traceback := e.exc_traceback } := by
  rcases e with ⟨t, lg, lv, f, th, m, et, em, etb⟩
  rcases et with _ | a <;> rcases em with _ | b <;> rcases etb with _ | c <;> rfl

/-!  Concrete objects used by the evaluation witnesses.  -/

/-- A filesystem oracle on which every operation succeeds. -/
def fsOK : FsOracle :=
  { openFile := fun _ _ => .ok (), closeFile := fun _ => .ok (),
    writeFile := fun _ _ => .ok (), flushFile := fun _ => .ok () }

/-- A filesystem oracle whose `_open` raises `OSError`. -/
def fsNoOpen : FsOracle :=
  { openFile := fun _ _ => .error (.ioError "disk full"), closeFile := fun _ => .ok (),
    writeFile := fun _ _ => .ok (), flushFile := fun _ => .ok () }

/-- A JSON-handler state as `__init__` leaves it on 2025-01-01:
`_current_file = None`, the day file opened by `FileHandler.__init__`. -/
def handlerInit : HandlerSt :=
  { log_dir := "logs/app", mode := "a", current_file := none,
    baseFilename := "logs/app/01_01_25_logs.ndjson",
    stream := some "logs/app/01_01_25_logs.ndjson" }

/-- The handler state after the 2025-01-02 rotation (JSON suffix). -/
def rotatedJson : HandlerSt :=
  { log_dir := "logs/app", mode := "a",
    current_file := some "logs/app/02_01_25_logs.ndjson",
    baseFilename := "logs/app/02_01_25_logs.ndjson",
    stream := some "logs/app/02_01_25_logs.ndjson" }

/-- The handler state after the 2025-01-02 rotation (text suffix). -/
def rotatedText : HandlerSt :=
  { log_dir := "logs/app", mode := "a",
    current_file := some "logs/app/02_01_25_logs.log",
    baseFilename := "logs/app/02_01_25_logs.log",
    stream := some "logs/app/02_01_25_logs.log" }

/-- Events of the rotated JSON write of line `"x"`. -/
def traceJson : List FsEvent :=
  [.closed "logs/app/01_01_25_logs.ndjson",
   .opened "logs/app/02_01_25_logs.ndjson" "a",
   .wrote "logs/app/02_01_25_logs.ndjson" "x\n",
   .flushed "logs/app/02_01_25_logs.ndjson"]

/-- Events of the rotated text write of line `"x"`. -/
def traceText : List FsEvent :=
  [.closed "logs/app/01_01_25_logs.ndjson",
   .opened "logs/app/02_01_25_logs.log" "a",
   .wrote "logs/app/02_01_25_logs.log" "x\n",
   .flushed "logs/app/02_01_25_logs.log",
   .flushed "logs/app/02_01_25_logs.log"]

/-!  The claims.  -/

/-- Claim C1: on every `emit` call of either rotating handler, the
target path is recomputed from the wall-clock date of that write
(`directory / formatted date + suffix`); whenever it differs from the
last-opened path (including the initial `None` case) the open handle
is closed, the candidate is opened in append mode and recorded as the
last-opened path, all before the record line is appended — the line
always lands in the file keyed by the current write date.  Stated over
the event trace of every successful write from a consistent state. -/
theorem claim_C1_rotation_targets_current_date
    (fs : FsOracle) (ser : Except PyErr String) (now : Date) (st : HandlerSt)
    (stJ stT : HandlerSt) (pJ pT : String) (trJ trT : List FsEvent) (line : String)
    (hg : goodStateB st = true) (hline : ser = .ok line) :
    (jsonEmitBody fs ser now st = .ok (stJ, pJ, trJ) →
       pJ = jsonLogFile st.log_dir now ∧ stJ.current_file = some pJ ∧
       stJ.baseFilename = pJ ∧ goodStateB stJ = true ∧
       trJ = jsonTrace st (jsonLogFile st.log_dir now) line) ∧
    (textEmitBody fs ser now st = .ok (stT, some pT, trT) →
       pT = textLogFile st.log_dir now ∧ stT.current_file = some pT ∧
       stT.baseFilename = pT ∧ goodStateB stT = true ∧
       trT = textTrace st (textLogFile st.log_dir now) line) :=
  ⟨fun h => jsonEmitBody_ok fs ser now st stJ pJ trJ line hg hline h,
   fun h => textEmitBody_ok fs ser now st stT pT trT line hg hline h⟩

theorem claim_C1_witness :
    goodStateB handlerInit = true ∧
    (Except.ok "x" : Except PyErr String) = .ok "x" ∧
    jsonEmitBody fsOK (.ok "x") ⟨2, 1, 2025⟩ handlerInit =
      .ok (rotatedJson, "logs/app/02_01_25_logs.ndjson", traceJson) ∧
    textEmitBody fsOK (.ok "x") ⟨2, 1, 2025⟩ handlerInit =
      .ok (rotatedText, some "logs/app/02_01_25_logs.log", traceText) ∧
    ((jsonEmitBody fsOK (.ok "x") ⟨2, 1, 2025⟩ handlerInit =
        .ok (rotatedJson, "logs/app/02_01_25_logs.ndjson", traceJson) →
      "logs/app/02_01_25_logs.ndjson" = jsonLogFile handlerInit.log_dir ⟨2, 1, 2025⟩ ∧
      rotatedJson.current_file = some "logs/app/02_01_25_logs.ndjson" ∧
      rotatedJson.baseFilename = "logs/app/02_01_25_logs.ndjson" ∧
      goodStateB rotatedJson = true ∧
      traceJson = jsonTrace handlerInit (jsonLogFile handlerInit.log_dir ⟨2, 1, 2025⟩) "x") ∧
     (textEmitBody fsOK (.ok "x") ⟨2, 1, 2025⟩ handlerInit =
        .ok (rotatedText, some "logs/app/02_01_25_logs.log", traceText) →
      "logs/app/02_01_25_logs.log" = textLogFile handlerInit.log_dir ⟨2, 1, 2025⟩ ∧
      rotatedText.current_file = some "logs/app/02_01_25_logs.log" ∧
      rotatedText.baseFilename = "logs/app/02_01_25_logs.log" ∧
      goodStateB rotatedText = true ∧
      traceText = textTrace handlerInit (textLogFile handlerInit.log_dir ⟨2, 1, 2025⟩) "x")) :=
  ⟨rfl, rfl, rfl, rfl,
   claim_C1_rotation_targets_current_date fsOK (.ok "x") ⟨2, 1, 2025⟩ handlerInit
     rotatedJson rotatedText "logs/app/02_01_25_logs.ndjson" "logs/app/02_01_25_logs.log"
     traceJson traceText "x" rfl rfl⟩

/-- Claim C7: neither `emit` lets an exception reach its caller: every
outcome of the `try` body — an I/O or serialization failure as much as
a completed write — is mapped by the `except Exception` clause to a
non-raising result (`handleError` fallback, or normal completion). -/
theorem claim_C7_emit_never_raises
    (fs : FsOracle) (ser : Except PyErr String) (now : Date) (st : HandlerSt)
    (e : PyErr) (stJ stT : HandlerSt) (p : String) (w : Option String)
    (trJ trT : List FsEvent) :
    (jsonEmitBody fs ser now st = .error e →
       jsonEmit fs ser now st = .errorHandled st) ∧
    (jsonEmitBody fs ser now st = .ok (stJ, p, trJ) →
       jsonEmit fs ser now st = .wrote stJ p trJ) ∧
    (textEmitBody fs ser now st = .error e →
       textEmit fs ser now st = .errorHandled st) ∧
    (textEmitBody fs ser now st = .ok (stT, w, trT) →
       textEmit fs ser now st = .completed stT w trT) := by
  refine ⟨fun h => ?_, fun h => ?_, fun h => ?_, fun h => ?_⟩ <;>
    simp [jsonEmit, textEmit, h]

theorem claim_C7_witness :
    jsonEmitBody fsNoOpen (.ok "x") ⟨2, 1, 2025⟩ handlerInit =
      .error (.ioError "disk full") ∧
    jsonEmit fsNoOpen (.ok "x") ⟨2, 1, 2025⟩ handlerInit = .errorHandled handlerInit ∧
    textEmitBody fsNoOpen (.ok "x") ⟨2, 1, 2025⟩ handlerInit =
      .error (.ioError "disk full") ∧
    textEmit fsNoOpen (.ok "x") ⟨2, 1, 2025⟩ handlerInit = .errorHandled handlerInit :=
  ⟨rfl,
   (claim_C7_emit_never_raises fsNoOpen (.ok "x") ⟨2, 1, 2025⟩ handlerInit
      (.ioError "disk full") handlerInit handlerInit "" none [] []).1 rfl,
   rfl,
   (claim_C7_emit_never_raises fsNoOpen (.ok "x") ⟨2, 1, 2025⟩ handlerInit
      (.ioError "disk full") handlerInit handlerInit "" none [] []).2.2.1 rfl⟩

/-- A fully populated `JsonLogEntry`, for witnesses. -/
def entryFull : JsonLogEntry :=
  { time := "2025-01-02 03:04:05", logger := "app", level := "ERROR",
    file := "main.py", thread := "MainThread", message := "boom",
    exc_type := some "ValueError", exc_message := some "bad value",
    exc_traceback := some "Traceback (most recent call last): ..." }

/-- Claim C2: for every valid record (six string fields; the three
exception fields all populated or all null), deserializing the
serialized JSON line restores the record field for field:
`from_dict (serialize_record e)` succeeds with exactly the fields of
`e`. -/
theorem claim_C2_serialize_roundtrip (e : JsonLogEntry)
    (_hvalid : (e.exc_type = none ∧ e.exc_message = none ∧ e.exc_traceback = none) ∨
       (e.exc_type.isSome = true ∧ e.exc_message.isSome = true ∧
        e.exc_traceback.isSome = true)) :
    from_dict (serialize_record e) =
      .ok { time := e.time, logger := e.logger, level := e.level, file := e.file,
            thread := e.thread, message := e.message, exc_type := e.exc_type,
            exc_message := e.exc_message, exc_traceback := e.exc_traceback } :=
  from_dict_serialize e

theorem claim_C2_witness :
    ((entryFull.exc_type = none ∧ entryFull.exc_message = none ∧
      entryFull.exc_traceback = none) ∨
     (entryFull.exc_type.isSome = true ∧ entryFull.exc_message.isSome = true ∧
      entryFull.exc_traceback.isSome = true)) ∧
    from_dict (serialize_record entryFull) =
      .ok { time := entryFull.time, logger := entryFull.logger,
            level := entryFull.level, file := entryFull.file,
            thread := entryFull.thread, message := entryFull.message,
            exc_type := entryFull.exc_type, exc_message := entryFull.exc_message,
            exc_traceback := entryFull.exc_traceback } :=
  ⟨Or.inr ⟨rfl, rfl, rfl⟩, claim_C2_serialize_roundtrip entryFull (Or.inr ⟨rfl, rfl, rfl⟩)⟩

/-- A trace formatter that raises, as the `try`/`except` around
`traceback.format_exception` anticipates. -/
def fmtRaises : FmtExc := fun _ _ _ => .error (.typeError "format_exception failed")

/-- A log record carrying a complete `exc_info` triple. -/
def recordWithExc : PyLogRecord :=
  { name := "app", levelname := "ERROR", filename := "main.py",
    threadName := "MainThread", msg := "boom", asctime := "2025-01-02 03:04:05",
    exc_info := some (some "ValueError", some "bad value", some ()) }

/-- A record with the degenerate-but-reachable `exc_info` tuple
`(ValueError, None, None)` (`logging` forwards any user-supplied
3-tuple into `record.exc_info` unchanged). -/
def recordHalfExc : PyLogRecord :=
  { name := "app", levelname := "ERROR", filename := "main.py",
    threadName := "MainThread", msg := "boom", asctime := "2025-01-02 03:04:05",
    exc_info := some (some "ValueError", none, none) }

/-- A trace formatter that succeeds as CPython's `format_exception`
does on a `None` value (it renders `"NoneType: None\n"`). -/
def fmtNoneType : FmtExc := fun _ _ _ => .ok "NoneType: None\n"

/-- Claim C3 counterexample: `JsonLogEntry.from_record` can emit a
partial combination of the three exception fields.  (a) With a
complete `exc_info` triple but a trace formatter that raises (the
source wraps `format_exception` in `try`/`except` and falls back to
`None`), the entry has `exc_type` and `exc_message` non-null while
`exc_traceback` is null.  (b) With the reachable tuple
`exc_info=(ValueError, None, None)` and the formatter succeeding as
CPython does, the entry has a non-null `exc_traceback` and non-null
`exc_type` with a null `exc_message` — the exact partial combination
the claim rules out. -/
theorem claim_C3_counterexample :
    ((from_record fmtRaises recordWithExc).exc_type = some "ValueError" ∧
     (from_record fmtRaises recordWithExc).exc_message = some "bad value" ∧
     (from_record fmtRaises recordWithExc).exc_traceback = none) ∧
    ((from_record fmtNoneType recordHalfExc).exc_type = some "ValueError" ∧
     (from_record fmtNoneType recordHalfExc).exc_message = none ∧
     (from_record fmtNoneType recordHalfExc).exc_traceback =
       some "NoneType: None\n") ∧
    ¬(((from_record fmtRaises recordWithExc).exc_type = none ∧
       (from_record fmtRaises recordWithExc).exc_message = none ∧
       (from_record fmtRaises recordWithExc).exc_traceback = none) ∨
      ((from_record fmtRaises recordWithExc).exc_type.isSome = true ∧
       (from_record fmtRaises recordWithExc).exc_message.isSome = true ∧
       (from_record fmtRaises recordWithExc).exc_traceback.isSome = true)) ∧
    ¬(((from_record fmtNoneType recordHalfExc).exc_type = none ∧
       (from_record fmtNoneType recordHalfExc).exc_message = none ∧
       (from_record fmtNoneType recordHalfExc).exc_traceback = none) ∨
      ((from_record fmtNoneType recordHalfExc).exc_type.isSome = true ∧
       (from_record fmtNoneType recordHalfExc).exc_message.isSome = true ∧
       (from_record fmtNoneType recordHalfExc).exc_traceback.isSome = true)) := by
  refine ⟨⟨rfl, rfl, rfl⟩, ⟨rfl, rfl, rfl⟩, ?_, ?_⟩
  · intro h
    rcases h with ⟨h1, _, _⟩ | ⟨_, _, h3⟩
    · exact Option.noConfusion h1
    · exact Bool.noConfusion h3
  · intro h
    rcases h with ⟨h1, _, _⟩ | ⟨_, h2, _⟩
    · exact Option.noConfusion h1
    · exact Bool.noConfusion h2

/-- Claim C3 (amended): when `exc_info` is absent all three exception
fields are null; when `exc_info` carries both a type and a value and
trace formatting succeeds, all three are non-null.  Partial
combinations arise only from degenerate `exc_info` triples or a
formatting failure. -/
theorem claim_C3_exc_fields_amended (fmt : FmtExc) (record : PyLogRecord)
    (t v s : String) (tb : Option Unit)
    (h2 : fmt (some t) (some v) tb = .ok s) :
    (record.exc_info = none →
       (from_record fmt record).exc_type = none ∧
       (from_record fmt record).exc_message = none ∧
       (from_record fmt record).exc_traceback = none) ∧
    (record.exc_info = some (some t, some v, tb) →
       (from_record fmt record).exc_type = some t ∧
       (from_record fmt record).exc_message = some v ∧
       (from_record fmt record).exc_traceback = some s) := by
  constructor
  · intro h
    simp [from_record, h]
  · intro h
    simp [from_record, h, h2]

/-- A trace formatter that succeeds with a fixed trace string. -/
def fmtOK : FmtExc := fun _ _ _ => .ok "Traceback (most recent call last): ..."

theorem claim_C3_witness :
    fmtOK (some "ValueError") (some "bad value") (some ()) =
      .ok "Traceback (most recent call last): ..." ∧
    ((recordWithExc.exc_info = none →
        (from_record fmtOK recordWithExc).exc_type = none ∧
        (from_record fmtOK recordWithExc).exc_message = none ∧
        (from_record fmtOK recordWithExc).exc_traceback = none) ∧
     (recordWithExc.exc_info = some (some "ValueError", some "bad value", some ()) →
        (from_record fmtOK recordWithExc).exc_type = some "ValueError" ∧
        (from_record fmtOK recordWithExc).exc_message = some "bad value" ∧
        (from_record fmtOK recordWithExc).exc_traceback =
          some "Traceback (most recent call last): ...")) :=
  ⟨rfl,
   claim_C3_exc_fields_amended fmtOK recordWithExc "ValueError" "bad value"
     "Traceback (most recent call last): ..." (some ()) rfl⟩

/-- Claim C10: `JsonLogRecord.from_dict` is total on dicts: it never
raises, whatever the JSON types of the values; each of the six
mandatory fields is the `str` of its value (defaulting to `""` when
absent), and each exception field is null exactly when its value is
absent or null, else the `str` of the value.  (The `raw[k]` subscripts
are reached only under the `raw.get(k) is not None` guard, which rules
out the `KeyError`.) -/
theorem claim_C10_from_dict_total (raw : PyDict) :
    from_dict raw =
      .ok { time := pyStr (dictGet raw "time" (.str ""))
            logger := pyStr (dictGet raw "logger" (.str ""))
            level := pyStr (dictGet raw "level" (.str ""))
            file := pyStr (dictGet raw "file" (.str ""))
            thread := pyStr (dictGet raw "thread" (.str ""))
            message := pyStr (dictGet raw "message" (.str ""))
            exc_type := if (dictGetOpt raw "exc_type").isNull then none
                        else some (pyStr (dictGetOpt raw "exc_type"))
            exc_message := if (dictGetOpt raw "exc_message").isNull then none
                           else some (pyStr (dictGetOpt raw "exc_message"))
            exc_traceback := if (dictGetOpt raw "exc_traceback").isNull then none
                             else some (pyStr (dictGetOpt raw "exc_traceback")) } :=
  from_dict_eq_pure raw

theorem strField_absent (raw : PyDict) (k : String)
    (hk : keyLookup raw k = none) : pyStr (dictGet raw k (.str "")) = "" := by
  rw [dictGet_eq_keyLookup, hk]
  rfl

theorem excPure_of_absent_or_null (raw : PyDict) (k : String)
    (hk : keyLookup raw k = none ∨ keyLookup raw k = some .null) :
    excPure raw k = none := by
  unfold excPure dictGetOpt
  rw [dictGet_eq_keyLookup]
  rcases hk with hk | hk <;> rw [hk] <;> rfl

theorem fromDictPure_ext (raw raw2 : PyDict)
    (e1 : keyLookup raw2 "time" = keyLookup raw "time")
    (e2 : keyLookup raw2 "logger" = keyLookup raw "logger")
    (e3 : keyLookup raw2 "level" = keyLookup raw "level")
    (e4 : keyLookup raw2 "file" = keyLookup raw "file")
    (e5 : keyLookup raw2 "thread" = keyLookup raw "thread")
    (e6 : keyLookup raw2 "message" = keyLookup raw "message")
    (e7 : keyLookup raw2 "exc_type" = keyLookup raw "exc_type")
    (e8 : keyLookup raw2 "exc_message" = keyLookup raw "exc_message")
    (e9 : keyLookup raw2 "exc_traceback" = keyLookup raw "exc_traceback") :
    fromDictPure raw2 = fromDictPure raw := by
  unfold fromDictPure excPure dictGetOpt
  simp only [dictGet_eq_keyLookup]
  rw [e1, e2, e3, e4, e5, e6, e7, e8, e9]

/-- Claim C8: `from_dict` defaults — a missing string field becomes
`""`; a missing or null exception field becomes null; keys outside the
nine-field set have no influence on the result (two dicts that agree
on the nine keys map to the same record). -/
theorem claim_C8_from_dict_field_defaults (raw raw2 : PyDict) (r r2 : JsonLogRecord)
    (h : from_dict raw = .ok r) (hh : from_dict raw2 = .ok r2) :
    (keyLookup raw "time" = none → r.time = "") ∧
    (keyLookup raw "logger" = none → r.logger = "") ∧
    (keyLookup raw "level" = none → r.level = "") ∧
    (keyLookup raw "file" = none → r.file = "") ∧
    (keyLookup raw "thread" = none → r.thread = "") ∧
    (keyLookup raw "message" = none → r.message = "") ∧
    (keyLookup raw "exc_type" = none ∨ keyLookup raw "exc_type" = some .null →
       r.exc_type = none) ∧
    (keyLookup raw "exc_message" = none ∨ keyLookup raw "exc_message" = some .null →
       r.exc_message = none) ∧
    (keyLookup raw "exc_traceback" = none ∨
       keyLookup raw "exc_traceback" = some .null → r.exc_traceback = none) ∧
    ((keyLookup raw2 "time" = keyLookup raw "time" ∧
      keyLookup raw2 "logger" = keyLookup raw "logger" ∧
      keyLookup raw2 "level" = keyLookup raw "level" ∧
      keyLookup raw2 "file" = keyLookup raw "file" ∧
      keyLookup raw2 "thread" = keyLookup raw "thread" ∧
      keyLookup raw2 "message" = keyLookup raw "message" ∧
      keyLookup raw2 "exc_type" = keyLookup raw "exc_type" ∧
      keyLookup raw2 "exc_message" = keyLookup raw "exc_message" ∧
      keyLookup raw2 "exc_traceback" = keyLookup raw "exc_traceback") → r2 = r) := by
  have hr := from_dict_eq_pure raw
  rw [h] at hr
  injection hr with hr
  subst hr
  have hr2 := from_dict_eq_pure raw2
  rw [hh] at hr2
  injection hr2 with hr2
  subst hr2
  refine ⟨fun hk => strField_absent raw "time" hk,
          fun hk => strField_absent raw "logger" hk,
          fun hk => strField_absent raw "level" hk,
          fun hk => strField_absent raw "file" hk,
          fun hk => strField_absent raw "thread" hk,
          fun hk => strField_absent raw "message" hk,
          fun hk => excPure_of_absent_or_null raw "exc_type" hk,
          fun hk => excPure_of_absent_or_null raw "exc_message" hk,
          fun hk => excPure_of_absent_or_null raw "exc_traceback" hk,
          fun he => ?_⟩
  obtain ⟨e1, e2, e3, e4, e5, e6, e7, e8, e9⟩ := he
  exact fromDictPure_ext raw raw2 e1 e2 e3 e4 e5 e6 e7 e8 e9

/-- A dict with only an unknown key and a null `exc_type`. -/
def rawExtra : PyDict := [("extra", .bool true), ("exc_type", .null)]

/-- A dict agreeing with `rawExtra` on all nine record keys. -/
def rawExcNull : PyDict := [("exc_type", .null), ("junk", .num 7)]

/-- The record both of them decode to. -/
def recEmpty : JsonLogRecord :=
  { time := "", logger := "", level := "", file := "", thread := "", message := "",
    exc_type := none, exc_message := none, exc_traceback := none }

theorem claim_C8_witness :
    from_dict rawExtra = .ok recEmpty ∧
    from_dict rawExcNull = .ok recEmpty ∧
    ((keyLookup rawExtra "time" = none → recEmpty.time = "") ∧
     (keyLookup rawExtra "logger" = none → recEmpty.logger = "") ∧
     (keyLookup rawExtra "level" = none → recEmpty.level = "") ∧
     (keyLookup rawExtra "file" = none → recEmpty.file = "") ∧
     (keyLookup rawExtra "thread" = none → recEmpty.thread = "") ∧
     (keyLookup rawExtra "message" = none → recEmpty.message = "") ∧
     (keyLookup rawExtra "exc_type" = none ∨
        keyLookup rawExtra "exc_type" = some .null → recEmpty.exc_type = none) ∧
     (keyLookup rawExtra "exc_message" = none ∨
        keyLookup rawExtra "exc_message" = some .null → recEmpty.exc_message = none) ∧
     (keyLookup rawExtra "exc_traceback" = none ∨
        keyLookup rawExtra "exc_traceback" = some .null →
          recEmpty.exc_traceback = none) ∧
     ((keyLookup rawExcNull "time" = keyLookup rawExtra "time" ∧
       keyLookup rawExcNull "logger" = keyLookup rawExtra "logger" ∧
       keyLookup rawExcNull "level" = keyLookup rawExtra "level" ∧
       keyLookup rawExcNull "file" = keyLookup rawExtra "file" ∧
       keyLookup rawExcNull "thread" = keyLookup rawExtra "thread" ∧
       keyLookup rawExcNull "message" = keyLookup rawExtra "message" ∧
       keyLookup rawExcNull "exc_type" = keyLookup rawExtra "exc_type" ∧
       keyLookup rawExcNull "exc_message" = keyLookup rawExtra "exc_message" ∧
       keyLookup rawExcNull "exc_traceback" = keyLookup rawExtra "exc_traceback") →
        recEmpty = recEmpty)) :=
  ⟨rfl, rfl,
   claim_C8_from_dict_field_defaults rawExtra rawExcNull recEmpty recEmpty rfl rfl⟩

/-- Claim C5 counterexample: the decode error raised on a bad line is
`json.loads`' error for that line alone — two files with different
paths and with the offending line at a different position (third line
of one, first line of the other) raise the identical error value, so
the error does not identify the file path or the line number. -/
theorem claim_C5_counterexample :
    to_list "logs/a/01_01_25_logs.ndjson"
        [.jsonLine (.obj []), .jsonLine (.obj []), .badLine "not json"] =
      to_list "logs/b/02_01_25_logs.ndjson" [.badLine "not json"] ∧
    to_list "logs/b/02_01_25_logs.ndjson" [.badLine "not json"] =
      .error (.decode { doc := "not json" }) ∧
    "logs/a/01_01_25_logs.ndjson" ≠ "logs/b/02_01_25_logs.ndjson" := by
  refine ⟨rfl, rfl, ?_⟩
  decide

/-- Claim C5 (amended): a structurally invalid non-blank line makes
the read abort with the `json.loads` decode error of the first such
line (the error carries that line's text and in-line position, not the
file path or the file line number), and a successful `to_list` result
can only come from a file with no invalid line — so no truncated,
skipped or reordered list is ever returned. -/
theorem claim_C5_reader_aborts_amended (path : String) (pre : List RawLine)
    (s : String) (rest ls : List RawLine) (ds : List Json)
    (h1 : pre.countP (fun l => l.isBad) = 0)
    (h2 : pre.countP (fun l => !l.isGoodObj) = 0)
    (h3 : to_list path ls = .ok ds) :
    to_list path (pre ++ .badLine s :: rest) = .error (.decode ⟨s⟩) ∧
    to_records path (pre ++ .badLine s :: rest) = .error (.decode ⟨s⟩) ∧
    ls.countP (fun l => l.isBad) = 0 := by
  refine ⟨iter_dicts_error_at_first_bad path pre s rest h1,
          iter_records_error_at_first_bad path pre s rest ?_,
          iter_dicts_ok_no_bad path ls ds h3⟩
  intro l hl
  have hnl := (List.countP_eq_zero.mp h2) l hl
  simpa using hnl

/-- The lines used by the C5 witness: a good record, a blank, then the
bad line, then one more record that must never be returned. -/
def preC5 : List RawLine := [.jsonLine (.obj [("message", .str "hello")]), .blank]

def lsC5 : List RawLine := [.jsonLine (.obj []), .blank]

theorem claim_C5_witness :
    preC5.countP (fun l => l.isBad) = 0 ∧
    preC5.countP (fun l => !l.isGoodObj) = 0 ∧
    to_list "logs/app/02_01_25_logs.ndjson" lsC5 = .ok [.obj []] ∧
    (to_list "logs/app/02_01_25_logs.ndjson"
        (preC5 ++ .badLine "oops" :: [.jsonLine (.obj [])]) =
       .error (.decode ⟨"oops"⟩) ∧
     to_records "logs/app/02_01_25_logs.ndjson"
        (preC5 ++ .badLine "oops" :: [.jsonLine (.obj [])]) =
       .error (.decode ⟨"oops"⟩) ∧
     lsC5.countP (fun l => l.isBad) = 0) :=
  ⟨by decide, by decide, rfl,
   claim_C5_reader_aborts_amended "logs/app/02_01_25_logs.ndjson" preC5 "oops"
     [.jsonLine (.obj [])] lsC5 [.obj []] (by decide) (by decide) rfl⟩

/-- Claim C6: over a file whose non-blank lines are all valid JSON
objects, the eager readers return exactly one parsed record per
non-blank line, in file order, independently of how many blank lines
there are and where they sit. -/
theorem claim_C6_to_records_in_order (path : String) (ls : List RawLine)
    (h : ls.countP (fun l => !l.isGoodObj) = 0) :
    to_records path ls = .ok ((objLines ls).map fromDictPure) ∧
    (objLines ls).length = ls.countP (fun l => !l.isBlank) ∧
    to_list path ls = .ok (jsonVals ls) ∧
    to_records path (ls.filter (fun l => !l.isBlank)) = to_records path ls ∧
    to_list path (ls.filter (fun l => !l.isBlank)) = to_list path ls := by
  have hall : ∀ l ∈ ls, l.isGoodObj = true := by
    intro l hl
    have hnl := (List.countP_eq_zero.mp h) l hl
    simpa using hnl
  have hnb : ls.countP (fun l => l.isBad) = 0 := by
    rw [List.countP_eq_zero]
    intro l hl
    have hg := hall l hl
    cases l with
    | blank => simp [RawLine.isBad]
    | jsonLine j => simp [RawLine.isBad]
    | badLine t => simp [RawLine.isGoodObj] at hg
  exact ⟨iter_records_ok_of_good path ls hall,
         objLines_length_of_good ls hall,
         iter_dicts_ok_of_no_bad path ls hnb,
         iter_records_filter_blanks path ls,
         iter_dicts_filter_blanks path ls⟩

/-- The file used by the C6 witness: two records among three blanks. -/
def lsC6 : List RawLine :=
  [.blank, .jsonLine (.obj [("message", .str "m1")]), .blank,
   .jsonLine (.obj []), .blank]

theorem claim_C6_witness :
    lsC6.countP (fun l => !l.isGoodObj) = 0 ∧
    (to_records "logs/app/02_01_25_logs.ndjson" lsC6 =
       .ok ((objLines lsC6).map fromDictPure) ∧
     (objLines lsC6).length = lsC6.countP (fun l => !l.isBlank) ∧
     to_list "logs/app/02_01_25_logs.ndjson" lsC6 = .ok (jsonVals lsC6) ∧
     to_records "logs/app/02_01_25_logs.ndjson"
        (lsC6.filter (fun l => !l.isBlank)) =
       to_records "logs/app/02_01_25_logs.ndjson" lsC6 ∧
     to_list "logs/app/02_01_25_logs.ndjson"
        (lsC6.filter (fun l => !l.isBlank)) =
       to_list "logs/app/02_01_25_logs.ndjson" lsC6) :=
  ⟨by decide,
   claim_C6_to_records_in_order "logs/app/02_01_25_logs.ndjson" lsC6 (by decide)⟩

theorem levelsMapGet_of_unknown (lvl : String)
    (h1 : lvl ≠ "DEBUG") (h2 : lvl ≠ "FATAL") (h3 : lvl ≠ "ERROR")
    (h4 : lvl ≠ "WARN") (h5 : lvl ≠ "INFO") : levelsMapGet lvl = 20 := by
  have e1 : (lvl == "DEBUG") = false := beq_eq_false_iff_ne.mpr h1
  have e2 : (lvl == "FATAL") = false := beq_eq_false_iff_ne.mpr h2
  have e3 : (lvl == "ERROR") = false := beq_eq_false_iff_ne.mpr h3
  have e4 : (lvl == "WARN") = false := beq_eq_false_iff_ne.mpr h4
  have e5 : (lvl == "INFO") = false := beq_eq_false_iff_ne.mpr h5
  simp [levelsMapGet, levels_map, List.lookup, e1, e2, e3, e4, e5]

theorem get_json_levels (name lvl : String) (c : Bool) (w : Nat) :
    (get_json_app_logger name lvl c w).1.level = levelsMapGet lvl ∧
    (get_json_app_logger name lvl c w).1.handlers.head? =
      some ⟨.fileH, levelsMapGet lvl⟩ := by
  cases c <;> simp [get_json_app_logger]

theorem get_app_levels (name lvl : String) (c : Bool) (w : Nat) :
    (get_app_logger name lvl c w).1.level = levelsMapGet lvl ∧
    (get_app_logger name lvl c w).1.handlers.head? =
      some ⟨.fileH, levelsMapGet lvl⟩ := by
  cases c <;> simp [get_app_logger]

/-- Claim C9: `levels_map.get(level, INFO)` — a level string outside
the five recognized names configures the logger and its file handler
at `INFO` (20); each recognized name yields its numeric level
(`DEBUG` 10, `FATAL` 50, `ERROR` 40, `WARN` 30, `INFO` 20), in both
factories. -/
theorem claim_C9_level_fallback_to_info (name lvl : String) (c : Bool) (w : Nat) :
    (¬(lvl = "DEBUG" ∨ lvl = "FATAL" ∨ lvl = "ERROR" ∨ lvl = "WARN" ∨ lvl = "INFO") →
       (get_json_app_logger name lvl c w).1.level = 20 ∧
       (get_json_app_logger name lvl c w).1.handlers.head? = some ⟨.fileH, 20⟩ ∧
       (get_app_logger name lvl c w).1.level = 20 ∧
       (get_app_logger name lvl c w).1.handlers.head? = some ⟨.fileH, 20⟩) ∧
    ((get_json_app_logger name "DEBUG" c w).1.level = 10 ∧
     (get_json_app_logger name "DEBUG" c w).1.handlers.head? = some ⟨.fileH, 10⟩ ∧
     (get_app_logger name "DEBUG" c w).1.level = 10 ∧
     (get_app_logger name "DEBUG" c w).1.handlers.head? = some ⟨.fileH, 10⟩) ∧
    ((get_json_app_logger name "FATAL" c w).1.level = 50 ∧
     (get_json_app_logger name "FATAL" c w).1.handlers.head? = some ⟨.fileH, 50⟩ ∧
     (get_app_logger name "FATAL" c w).1.level = 50 ∧
     (get_app_logger name "FATAL" c w).1.handlers.head? = some ⟨.fileH, 50⟩) ∧
    ((get_json_app_logger name "ERROR" c w).1.level = 40 ∧
     (get_json_app_logger name "ERROR" c w).1.handlers.head? = some ⟨.fileH, 40⟩ ∧
     (get_app_logger name "ERROR" c w).1.level = 40 ∧
     (get_app_logger name "ERROR" c w).1.handlers.head? = some ⟨.fileH, 40⟩) ∧
    ((get_json_app_logger name "WARN" c w).1.level = 30 ∧
     (get_json_app_logger name "WARN" c w).1.handlers.head? = some ⟨.fileH, 30⟩ ∧
     (get_app_logger name "WARN" c w).1.level = 30 ∧
     (get_app_logger name "WARN" c w).1.handlers.head? = some ⟨.fileH, 30⟩) ∧
    ((get_json_app_logger name "INFO" c w).1.level = 20 ∧
     (get_json_app_logger name "INFO" c w).1.handlers.head? = some ⟨.fileH, 20⟩ ∧
     (get_app_logger name "INFO" c w).1.level = 20 ∧
     (get_app_logger name "INFO" c w).1.handlers.head? = some ⟨.fileH, 20⟩) := by
  refine ⟨?_, ?_, ?_, ?_, ?_, ?_⟩
  · intro h
    push_neg at h
    obtain ⟨h1, h2, h3, h4, h5⟩ := h
    have hl := levelsMapGet_of_unknown lvl h1 h2 h3 h4 h5
    have gj := get_json_levels name lvl c w
    have ga := get_app_levels name lvl c w
    rw [hl] at gj ga
    exact ⟨gj.1, gj.2, ga.1, ga.2⟩
  all_goals cases c <;> exact ⟨rfl, rfl, rfl, rfl⟩

theorem claim_C9_witness :
    ¬(("TRACE" : String) = "DEBUG" ∨ ("TRACE" : String) = "FATAL" ∨
      ("TRACE" : String) = "ERROR" ∨ ("TRACE" : String) = "WARN" ∨
      ("TRACE" : String) = "INFO") ∧
    ((get_json_app_logger "svc" "TRACE" false 0).1.level = 20 ∧
     (get_json_app_logger "svc" "TRACE" false 0).1.handlers.head? =
       some ⟨.fileH, 20⟩ ∧
     (get_app_logger "svc" "TRACE" false 0).1.level = 20 ∧
     (get_app_logger "svc" "TRACE" false 0).1.handlers.head? = some ⟨.fileH, 20⟩) :=
  ⟨by decide,
   (claim_C9_level_fallback_to_info "svc" "TRACE" false 0).1 (by decide)⟩

/-- Claim C4 (code bug evidence): the factories are not idempotent per
name.  Each call constructs a fresh `Logger` instance directly
(`JsonAppLogger(logger_name)` / `AppLogger(logger_name)` — the
`logging.getLogger` registry is never consulted), so its `handlers`
list is empty, the `if not logger.handlers:` guard always passes, and
a new rotating file writer is constructed on every call: after two
calls for the same name, two writers targeting the same files exist
(`writersMade` goes `w ↦ w + 1` unconditionally), where the claim
requires the second call to return the existing configured instance
with no new writer. -/
theorem claim_C4_duplicate_writers (name lvl : String) (c : Bool) (w : Nat) :
    (get_json_app_logger name lvl c w).2 = w + 1 ∧
    (get_app_logger name lvl c w).2 = w + 1 ∧
    (get_json_app_logger "bot" "INFO" false
       (get_json_app_logger "bot" "INFO" false 0).2).2 = 2 ∧
    (get_json_app_logger "bot" "INFO" false 0).1.handlers.length = 1 ∧
    (get_json_app_logger "bot" "INFO" false
       (get_json_app_logger "bot" "INFO" false 0).2).1.handlers.length = 1 ∧
    (get_app_logger "bot" "INFO" false
       (get_app_logger "bot" "INFO" false 0).2).2 = 2 := by
  refine ⟨?_, ?_, rfl, rfl, rfl, rfl⟩ <;> cases c <;> rfl

end PyJsonLogger
